import Mathlib

set_option maxHeartbeats 2000000

/-!
Shallow embedding of `src/app.py` (ThreadWebX): the job pipeline
(`process_job_background` and its stage functions), the in-memory job store,
and the status/result query routes.

External effects (OpenAI Whisper API, local whisper model, OpenAI chat
completion plus `json.loads`, pytube download, ffmpeg subprocess, `os.unlink`)
are modelled by an `Env` of oracles: each oracle says whether the call raises
(and with which exception message) or succeeds (and with which value).
`json.loads` output is modelled by `PyVal`, a Python/JSON value tree
(floats are not needed by any claim and are omitted).
The temporary files on disk are modelled as a list of path names.
-/

/-- A Python value as produced by `json.loads` (and stored in `job['result']`). -/
inductive PyVal where
  | str (s : String)
  | int (n : Int)
  | bool (b : Bool)
  | null
  | list (xs : List PyVal)
  | dict (kvs : List (String × PyVal))

/-- The job dict stored in the global `jobs` map: created by the upload routes
with `user_id`, `status='pending'`, `progress=0`, `created_at`; `result` /
`error` keys are added only by the terminal `update` calls. -/
structure JobRec where
  user_id : String
  status : String
  progress : Nat
  result : Option PyVal
  error : Option String
  created_at : String

/-- Oracles for every external call the pipeline makes.  `none` in an
`Option String`-valued transcript/json field means the call raises; for the
`...Err` fields, `some e` means the call fails and `str(e)` (resp. the
captured `stderr`) is `e`. -/
structure Env where
  /-- Whisper API transcription: `some t` = returns transcript `t`, `none` = raises. -/
  apiTranscript : Option String
  /-- local whisper transcription: `some t` = returns transcript `t`, `none` = raises. -/
  localTranscript : Option String
  /-- chat completion + `json.loads`: `some v` = the remote call succeeds and its
  content is valid JSON parsing to `v` (the code does not validate the shape of
  `v`); `none` = the remote call raises or `json.loads` raises. -/
  chatJson : Option PyVal
  /-- whether `yt.streams` yields any usable audio stream. -/
  ytStreamFound : Bool
  /-- `audio_stream.download`: `some e` = raises with message `e`, `none` = succeeds. -/
  ytDownloadErr : Option String
  /-- the name `tempfile.NamedTemporaryFile(suffix='.mp4')` allocates. -/
  tmpName : String
  /-- `yt.title`. -/
  ytTitle : String
  /-- primary ffmpeg run: `some stderr` = nonzero returncode, `none` = success. -/
  ffmpegWavErr : Option String
  /-- retry ffmpeg run: `some stderr` = nonzero returncode, `none` = success. -/
  ffmpegMp3Err : Option String
  /-- `os.unlink`: `some e` = raises `OSError` with message `e`, `none` = succeeds. -/
  unlinkErr : Option String

/-- The payload handed to `process_job_background`, per `job_type` string. -/
inductive JobData where
  | youtube (url : String)
  | video (file_path : String)
  | article (text : String)

/-- Python `x or default` for an optional string (`None` and `""` are falsy). -/
def pyOrStr (x : Option String) (d : String) : String :=
  match x with
  | some s => if s = "" then d else s
  | none => d

/-- `transcribe_audio_local` (src/app.py:91-99): local whisper, and on any
exception it returns the placeholder string instead of raising. -/
def transcribe_audio_local (env : Env) (_audio_path : String) : String :=
  match env.localTranscript with
  | some t => t
  | none => "Error: Could not transcribe audio"

/-- `transcribe_audio_whisper_api` (src/app.py:76-89): Whisper API, falling
back to `transcribe_audio_local` on any exception. -/
def transcribe_audio_whisper_api (env : Env) (audio_path : String) : String :=
  match env.apiTranscript with
  | some t => t
  | none => transcribe_audio_local env audio_path

/-- Python `str.split(sep)` on character lists for a non-empty separator:
leftmost non-overlapping matches, keeping empty pieces.  The fuel argument
(instantiated with the input length, which bounds the number of steps) keeps
the recursion structural so that the kernel can evaluate it. -/
def pySplitAux (sep : List Char) : Nat → List Char → List Char → List (List Char)
  | 0, _, acc => [acc.reverse]
  | _ + 1, [], acc => [acc.reverse]
  | fuel + 1, c :: rest, acc =>
    if (c :: rest).take sep.length = sep then
      acc.reverse :: pySplitAux sep fuel ((c :: rest).drop sep.length) []
    else pySplitAux sep fuel rest (c :: acc)

/-- Python `s.split(sep)` for a non-empty separator string. -/
def pySplit (s sep : String) : List String :=
  (pySplitAux sep.data s.data.length s.data []).map (fun cs => ⟨cs⟩)

/-- Python `s.strip()`: remove leading and trailing whitespace. -/
def pyStrip (s : String) : String :=
  ⟨((s.data.dropWhile Char.isWhitespace).reverse.dropWhile Char.isWhitespace).reverse⟩

/-- The tweet list built by the `except` branch of `generate_threads_ai`
(src/app.py:136-141): first 8 `'. '`-separated sentences, each non-blank one
numbered `i/` (enumerate starting at 1) with a trailing period, between a hook
tweet and a fixed call-to-action tweet. -/
def fallbackTweets (content : String) (title : Option String) : List String :=
  let sentences := (pySplit content ". ").take 8
  let hook := "🧵 " ++ pyOrStr title "Key insights" ++ " - Thread:"
  let numbered := sentences.enum.filterMap (fun p =>
    if pyStrip p.2 ≠ "" then some (toString (p.1 + 1) ++ "/ " ++ pyStrip p.2 ++ ".") else none)
  hook :: (numbered ++ ["What do you think? Drop your thoughts below! 👇"])

/-- The single-thread fallback value returned by the `except` branch of
`generate_threads_ai` (src/app.py:143-147). -/
def fallback_threads (content : String) (title : Option String) : PyVal :=
  .list [.dict [("title", .str (pyOrStr title "Generated Thread")),
                ("tweets", .list ((fallbackTweets content title).map .str)),
                ("engagement", .str "Medium")]]

/-- `generate_threads_ai` (src/app.py:101-147): returns `json.loads` of the
chat completion content unvalidated; on any exception (remote failure or
invalid JSON) returns the deterministic fallback thread. -/
def generate_threads_ai (env : Env) (content : String) (title : Option String) : PyVal :=
  match env.chatJson with
  | some v => v
  | none => fallback_threads content title

/-- add a created file to the filesystem (a set of path names). -/
def addFile (fs : List String) (p : String) : List String :=
  if p ∈ fs then fs else p :: fs

/-- Result of `download_youtube_audio`: the raised/returned value and the
filesystem afterwards (the temp file is created before the download runs). -/
structure DownloadOut where
  res : Except String (String × String)
  fs : List String

/-- `download_youtube_audio` (src/app.py:149-173): pick an audio stream
(raising "No suitable audio stream found" if there is none), create a named
temp file, download into it (re-raising any download exception), and return
`(temp_file.name, yt.title)`. -/
def download_youtube_audio (env : Env) (_url : String) (fs : List String) : DownloadOut :=
  if env.ytStreamFound then
    let fs1 := addFile fs env.tmpName
    match env.ytDownloadErr with
    | some e => { res := .error e, fs := fs1 }
    | none => { res := .ok (env.tmpName, env.ytTitle), fs := fs1 }
  else { res := .error "No suitable audio stream found", fs := fs }

/-- `video_path.replace('.mp4', ext).replace('.mov', ext).replace('.avi', ext)`. -/
def replaceVideoExt (p ext : String) : String :=
  ((p.replace ".mp4" ext).replace ".mov" ext).replace ".avi" ext

/-- Result of `extract_audio_from_video`: the raised/returned value, the
filesystem afterwards, and the ffmpeg output paths attempted, in order. -/
structure ExtractOut where
  res : Except String String
  fs : List String
  calls : List String

/-- `extract_audio_from_video` (src/app.py:175-206): run ffmpeg targeting the
`.wav` path; on nonzero returncode retry once targeting the `.mp3` path; if the
retry also fails, raise `FFmpeg failed: <stderr of the retry>`. -/
def extract_audio_from_video (env : Env) (video_path : String) (fs : List String) : ExtractOut :=
  let wav := replaceVideoExt video_path ".wav"
  match env.ffmpegWavErr with
  | none => { res := .ok wav, fs := addFile fs wav, calls := [wav] }
  | some _ =>
    let mp3 := replaceVideoExt video_path ".mp3"
    match env.ffmpegMp3Err with
    | none => { res := .ok mp3, fs := addFile fs mp3, calls := [wav, mp3] }
    | some e2 => { res := .error ("FFmpeg failed: " ++ e2), fs := fs, calls := [wav, mp3] }

/-- Execution state of one job: the current record in `jobs[job_id]`, the
history of record values after each store mutation, the progress values
written in order, and the temp files currently on disk. -/
structure PState where
  job : JobRec
  hist : List JobRec
  ptrace : List Nat
  fs : List String

/-- record a store mutation. -/
def snap (s : PState) (j : JobRec) : PState :=
  { s with job := j, hist := s.hist ++ [j] }

/-- `jobs[job_id]['status'] = st`. -/
def setStatus (s : PState) (st : String) : PState :=
  snap s { s.job with status := st }

/-- `jobs[job_id]['progress'] = p`. -/
def setProgress (s : PState) (p : Nat) : PState :=
  { snap s { s.job with progress := p } with ptrace := s.ptrace ++ [p] }

/-- `jobs[job_id].update({'status': 'completed', 'progress': 100, 'result': threads})`. -/
def completeUpdate (s : PState) (threads : PyVal) : PState :=
  { snap s { s.job with status := "completed", progress := 100, result := some threads }
    with ptrace := s.ptrace ++ [100] }

/-- `jobs[job_id].update({'status': 'failed', 'error': str(e)})` — note that it
does not remove a `result` already stored. -/
def failUpdate (s : PState) (e : String) : PState :=
  snap s { s.job with status := "failed", error := some e }

/-- `if os.path.exists(p): os.unlink(p)` — `some e` is a raised `OSError`. -/
def unlink (env : Env) (s : PState) (p : String) : Option String × PState :=
  if p ∈ s.fs then
    match env.unlinkErr with
    | some e => (some e, s)
    | none => (none, { s with fs := s.fs.erase p })
  else (none, s)

/-- the `job_type == 'youtube'` branch of `run()` (src/app.py:215-236). -/
def run_youtube (env : Env) (s0 : PState) (url : String) : PState :=
  let s1 := setProgress s0 30
  match download_youtube_audio env url s1.fs with
  | { res := .error e, fs := fs1 } => failUpdate { s1 with fs := fs1 } e
  | { res := .ok (audio_path, title), fs := fs1 } =>
    let s2 := setProgress { s1 with fs := fs1 } 60
    let transcript := transcribe_audio_whisper_api env audio_path
    let s3 := setProgress s2 80
    let threads := generate_threads_ai env transcript (some title)
    let s4 := completeUpdate s3 threads
    match unlink env s4 audio_path with
    | (some e, s5) => failUpdate s5 e
    | (none, s5) => s5

/-- the `job_type == 'video'` branch of `run()` (src/app.py:238-264). -/
def run_video (env : Env) (s0 : PState) (file_path : String) : PState :=
  let s1 := setProgress s0 40
  match extract_audio_from_video env file_path s1.fs with
  | { res := .error e, fs := fs1, calls := _ } => failUpdate { s1 with fs := fs1 } e
  | { res := .ok audio_path, fs := fs1, calls := _ } =>
    let s2 := setProgress { s1 with fs := fs1 } 60
    let transcript := transcribe_audio_whisper_api env audio_path
    let s3 := setProgress s2 80
    let threads := generate_threads_ai env transcript none
    let s4 := completeUpdate s3 threads
    match unlink env s4 file_path with
    | (some e, s5) => failUpdate s5 e
    | (none, s5) =>
      match unlink env s5 audio_path with
      | (some e, s6) => failUpdate s6 e
      | (none, s6) => s6

/-- the `job_type == 'article'` branch of `run()` (src/app.py:266-276). -/
def run_article (env : Env) (s0 : PState) (text : String) : PState :=
  let s1 := setProgress s0 50
  let threads := generate_threads_ai env text none
  completeUpdate s1 threads

/-- `run()` inside `process_job_background` (src/app.py:210-283): set status
to processing, write progress 20, then run the branch for the job type; the
whole body is wrapped in try/except and each branch above already routes every
raised exception to the `failUpdate` handler. -/
def process_job_background (env : Env) (s0 : PState) (data : JobData) : PState :=
  let s := setProgress (setStatus s0 "processing") 20
  match data with
  | .youtube url => run_youtube env s url
  | .video fp => run_video env s fp
  | .article tx => run_article env s tx

/-- the temp files existing when the background thread starts: the upload
route has already saved the uploaded file for a `video` job. -/
def initialFs : JobData → List String
  | .youtube _ => []
  | .video fp => [fp]
  | .article _ => []

/-- the record the upload routes put into `jobs` (src/app.py:376-381, 403-408,
424-429): status pending, progress 0, no result/error keys. -/
def initJob (uid t : String) : JobRec :=
  { user_id := uid, status := "pending", progress := 0,
    result := none, error := none, created_at := t }

/-- state at creation time: record stored with progress 0. -/
def initState (uid t : String) (fs0 : List String) : PState :=
  { job := initJob uid t, hist := [initJob uid t], ptrace := [0], fs := fs0 }

/-- one whole job: route creates the record, background thread runs it. -/
def submit_and_run (env : Env) (uid t : String) (data : JobData) : PState :=
  process_job_background env (initState uid t (initialFs data)) data

/-- the progress values written after the `Pending → Processing` transition
(everything in `ptrace` except the 0 written at creation). -/
def execTrace (env : Env) (uid t : String) (data : JobData) : List Nat :=
  (submit_and_run env uid t data).ptrace.drop 1

/-- the per-kind milestone table of the spec (§4.3). -/
def milestones : JobData → List Nat
  | .youtube _ => [30, 60, 80, 100]
  | .video _ => [40, 60, 80, 100]
  | .article _ => [50, 100]

/-- errors of the job query routes. -/
inductive QueryError where
  | NotFound
  | Unauthorized
  | NotReady
deriving DecidableEq

/-- `get_job_status` (src/app.py:435-445): 404 for unknown id, 403 when
`job['user_id'] != request.user['uid']`, otherwise `jsonify(job)` — the whole
stored record. -/
def get_job_status (store : String → Option JobRec) (job_id uid : String) :
    Except QueryError JobRec :=
  match store job_id with
  | none => .error .NotFound
  | some job =>
    if job.user_id ≠ uid then .error .Unauthorized
    else .ok job

/-- `get_job_result` (src/app.py:447-460): 404 for unknown id, 403 on owner
mismatch, 400 ("Job not completed") unless status is completed, otherwise
`job['result']` (always present when status is completed). -/
def get_job_result (store : String → Option JobRec) (job_id uid : String) :
    Except QueryError PyVal :=
  match store job_id with
  | none => .error .NotFound
  | some job =>
    if job.user_id ≠ uid then .error .Unauthorized
    else if job.status ≠ "completed" then .error .NotReady
    else .ok (job.result.getD .null)

/-- an environment in which every external call succeeds. -/
def envOk : Env :=
  { apiTranscript := some "api transcript", localTranscript := some "local transcript",
    chatJson := none, ytStreamFound := true, ytDownloadErr := none,
    tmpName := "/tmp/a.mp4", ytTitle := "My Title",
    ffmpegWavErr := none, ffmpegMp3Err := none, unlinkErr := none }

/-- shorthand for a job record value. -/
def jRec (uid t st : String) (p : Nat) (res : Option PyVal) (err : Option String) : JobRec :=
  { user_id := uid, status := st, progress := p, result := res, error := err, created_at := t }

/-- the record history every job starts with: creation, `Pending → Processing`,
and the progress-20 write. -/
def histPre (uid t : String) : List JobRec :=
  [jRec uid t "pending" 0 none none,
   jRec uid t "processing" 0 none none,
   jRec uid t "processing" 20 none none]

lemma mem_addFile (fs : List String) (p q : String) (hm : p ∈ fs) : p ∈ addFile fs q := by
  unfold addFile
  split
  · exact hm
  · exact List.mem_cons_of_mem _ hm

lemma unlink_none (env : Env) (s : PState) (p : String) (h : env.unlinkErr = none) :
    unlink env s p = (none, { s with fs := s.fs.erase p }) := by
  unfold unlink
  rw [h]
  split
  · rfl
  · rw [List.erase_of_not_mem (by assumption)]

lemma unlink_raise (env : Env) (s : PState) (p e : String) (hm : p ∈ s.fs)
    (h : env.unlinkErr = some e) : unlink env s p = (some e, s) := by
  unfold unlink
  rw [if_pos hm, h]

/-- `unlink` rephrased so the error oracle is scrutinised first (`erase` of a
non-member is the identity, so the filesystem equation is unconditional). -/
lemma unlink_eq (env : Env) (s : PState) (p : String) :
    unlink env s p =
      match env.unlinkErr with
      | some e => if p ∈ s.fs then (some e, s) else (none, s)
      | none => (none, { s with fs := s.fs.erase p }) := by
  unfold unlink
  cases h : env.unlinkErr <;> split <;> simp [List.erase_of_not_mem, *]

/-- full run of an `article` job: always completes, no temp files. -/
lemma article_run (env : Env) (uid t tx : String) :
    submit_and_run env uid t (.article tx) =
      { job := jRec uid t "completed" 100 (some (generate_threads_ai env tx none)) none,
        hist := histPre uid t ++
          [jRec uid t "processing" 50 none none,
           jRec uid t "completed" 100 (some (generate_threads_ai env tx none)) none],
        ptrace := [0, 20, 50, 100],
        fs := [] } := by
  rfl

/-- run of a `youtube` job when no audio stream is available. -/
lemma youtube_run_noStream (env : Env) (uid t url : String)
    (h : env.ytStreamFound = false) :
    submit_and_run env uid t (.youtube url) =
      { job := jRec uid t "failed" 30 none (some "No suitable audio stream found"),
        hist := histPre uid t ++
          [jRec uid t "processing" 30 none none,
           jRec uid t "failed" 30 none (some "No suitable audio stream found")],
        ptrace := [0, 20, 30],
        fs := [] } := by
  obtain ⟨api, loc, chat, ysf, ydl, tmp, ytt, fw, fm, ul⟩ := env
  subst h
  rfl

/-- run of a `youtube` job when the stream download raises `e`: the job fails
with `e` and the created temp file is left on disk. -/
lemma youtube_run_dlErr (env : Env) (uid t url e : String)
    (h1 : env.ytStreamFound = true) (h2 : env.ytDownloadErr = some e) :
    submit_and_run env uid t (.youtube url) =
      { job := jRec uid t "failed" 30 none (some e),
        hist := histPre uid t ++
          [jRec uid t "processing" 30 none none,
           jRec uid t "failed" 30 none (some e)],
        ptrace := [0, 20, 30],
        fs := [env.tmpName] } := by
  obtain ⟨api, loc, chat, ysf, ydl, tmp, ytt, fw, fm, ul⟩ := env
  subst h1; subst h2
  rfl

lemma youtube_run_ok (env : Env) (uid t url : String)
    (h1 : env.ytStreamFound = true) (h2 : env.ytDownloadErr = none)
    (h3 : env.unlinkErr = none) :
    submit_and_run env uid t (.youtube url) =
      { job := jRec uid t "completed" 100
          (some (generate_threads_ai env
            (transcribe_audio_whisper_api env env.tmpName) (some env.ytTitle))) none,
        hist := histPre uid t ++
          [jRec uid t "processing" 30 none none,
           jRec uid t "processing" 60 none none,
           jRec uid t "processing" 80 none none,
           jRec uid t "completed" 100
             (some (generate_threads_ai env
               (transcribe_audio_whisper_api env env.tmpName) (some env.ytTitle))) none],
        ptrace := [0, 20, 30, 60, 80, 100],
        fs := [] } := by
  obtain ⟨api, loc, chat, ysf, ydl, tmp, ytt, fw, fm, ul⟩ := env
  subst h1; subst h2; subst h3
  simp [submit_and_run, process_job_background, run_youtube, download_youtube_audio,
    initState, setStatus, setProgress, snap, completeUpdate, failUpdate, addFile, initialFs,
    initJob, unlink_eq, histPre, jRec, List.erase_cons_head]

lemma youtube_run_unlinkErr (env : Env) (uid t url e : String)
    (h1 : env.ytStreamFound = true) (h2 : env.ytDownloadErr = none)
    (h3 : env.unlinkErr = some e) :
    submit_and_run env uid t (.youtube url) =
      { job := jRec uid t "failed" 100
          (some (generate_threads_ai env
            (transcribe_audio_whisper_api env env.tmpName) (some env.ytTitle))) (some e),
        hist := histPre uid t ++
          [jRec uid t "processing" 30 none none,
           jRec uid t "processing" 60 none none,
           jRec uid t "processing" 80 none none,
           jRec uid t "completed" 100
             (some (generate_threads_ai env
               (transcribe_audio_whisper_api env env.tmpName) (some env.ytTitle))) none,
           jRec uid t "failed" 100
             (some (generate_threads_ai env
               (transcribe_audio_whisper_api env env.tmpName) (some env.ytTitle))) (some e)],
        ptrace := [0, 20, 30, 60, 80, 100],
        fs := [env.tmpName] } := by
  obtain ⟨api, loc, chat, ysf, ydl, tmp, ytt, fw, fm, ul⟩ := env
  subst h1; subst h2; subst h3
  simp [submit_and_run, process_job_background, run_youtube, download_youtube_audio,
    initState, setStatus, setProgress, snap, completeUpdate, failUpdate, addFile, initialFs,
    initJob, unlink_eq, histPre, jRec]

/-- run of a `video` job when both ffmpeg attempts fail: the job fails with the
retry's stderr in the message and the uploaded file is left on disk. -/
lemma video_run_extractFail (env : Env) (uid t fp e1 e2 : String)
    (h1 : env.ffmpegWavErr = some e1) (h2 : env.ffmpegMp3Err = some e2) :
    submit_and_run env uid t (.video fp) =
      { job := jRec uid t "failed" 40 none (some ("FFmpeg failed: " ++ e2)),
        hist := histPre uid t ++
          [jRec uid t "processing" 40 none none,
           jRec uid t "failed" 40 none (some ("FFmpeg failed: " ++ e2))],
        ptrace := [0, 20, 40],
        fs := [fp] } := by
  obtain ⟨api, loc, chat, ysf, ydl, tmp, ytt, fw, fm, ul⟩ := env
  subst h1; subst h2
  rfl

/-- run of a `video` job when the primary ffmpeg attempt succeeds and the
unlinks succeed: completes, both temp files deleted. -/
lemma video_run_wavOk (env : Env) (uid t fp : String)
    (h1 : env.ffmpegWavErr = none) (h2 : env.unlinkErr = none) :
    submit_and_run env uid t (.video fp) =
      { job := jRec uid t "completed" 100
          (some (generate_threads_ai env
            (transcribe_audio_whisper_api env (replaceVideoExt fp ".wav")) none)) none,
        hist := histPre uid t ++
          [jRec uid t "processing" 40 none none,
           jRec uid t "processing" 60 none none,
           jRec uid t "processing" 80 none none,
           jRec uid t "completed" 100
             (some (generate_threads_ai env
               (transcribe_audio_whisper_api env (replaceVideoExt fp ".wav")) none)) none],
        ptrace := [0, 20, 40, 60, 80, 100],
        fs := ((addFile [fp] (replaceVideoExt fp ".wav")).erase fp).erase
          (replaceVideoExt fp ".wav") } := by
  obtain ⟨api, loc, chat, ysf, ydl, tmp, ytt, fw, fm, ul⟩ := env
  subst h1; subst h2
  simp [submit_and_run, process_job_background, run_video, extract_audio_from_video,
    initState, setStatus, setProgress, snap, completeUpdate, failUpdate, initialFs,
    initJob, unlink_eq, histPre, jRec]

/-- run of a `video` job when the primary ffmpeg attempt fails, the retry
succeeds, and the unlinks succeed. -/
lemma video_run_mp3Ok (env : Env) (uid t fp e1 : String)
    (h1 : env.ffmpegWavErr = some e1) (h2 : env.ffmpegMp3Err = none)
    (h3 : env.unlinkErr = none) :
    submit_and_run env uid t (.video fp) =
      { job := jRec uid t "completed" 100
          (some (generate_threads_ai env
            (transcribe_audio_whisper_api env (replaceVideoExt fp ".mp3")) none)) none,
        hist := histPre uid t ++
          [jRec uid t "processing" 40 none none,
           jRec uid t "processing" 60 none none,
           jRec uid t "processing" 80 none none,
           jRec uid t "completed" 100
             (some (generate_threads_ai env
               (transcribe_audio_whisper_api env (replaceVideoExt fp ".mp3")) none)) none],
        ptrace := [0, 20, 40, 60, 80, 100],
        fs := ((addFile [fp] (replaceVideoExt fp ".mp3")).erase fp).erase
          (replaceVideoExt fp ".mp3") } := by
  obtain ⟨api, loc, chat, ysf, ydl, tmp, ytt, fw, fm, ul⟩ := env
  subst h1; subst h2; subst h3
  simp [submit_and_run, process_job_background, run_video, extract_audio_from_video,
    initState, setStatus, setProgress, snap, completeUpdate, failUpdate, initialFs,
    initJob, unlink_eq, histPre, jRec]

/-- run of a `video` job when extraction succeeds (primary attempt) but the
post-completion unlink raises: the job record ends as failed while keeping its
result, and nothing is deleted. -/
lemma video_run_wavOk_unlinkErr (env : Env) (uid t fp e : String)
    (h1 : env.ffmpegWavErr = none) (h2 : env.unlinkErr = some e) :
    submit_and_run env uid t (.video fp) =
      { job := jRec uid t "failed" 100
          (some (generate_threads_ai env
            (transcribe_audio_whisper_api env (replaceVideoExt fp ".wav")) none)) (some e),
        hist := histPre uid t ++
          [jRec uid t "processing" 40 none none,
           jRec uid t "processing" 60 none none,
           jRec uid t "processing" 80 none none,
           jRec uid t "completed" 100
             (some (generate_threads_ai env
               (transcribe_audio_whisper_api env (replaceVideoExt fp ".wav")) none)) none,
           jRec uid t "failed" 100
             (some (generate_threads_ai env
               (transcribe_audio_whisper_api env (replaceVideoExt fp ".wav")) none)) (some e)],
        ptrace := [0, 20, 40, 60, 80, 100],
        fs := addFile [fp] (replaceVideoExt fp ".wav") } := by
  obtain ⟨api, loc, chat, ysf, ydl, tmp, ytt, fw, fm, ul⟩ := env
  subst h1; subst h2
  by_cases hwf : replaceVideoExt fp ".wav" = fp <;>
    simp [submit_and_run, process_job_background, run_video, extract_audio_from_video,
      initState, setStatus, setProgress, snap, completeUpdate, failUpdate, initialFs,
      initJob, unlink_eq, addFile, histPre, jRec, hwf]

/-- run of a `video` job when extraction succeeds on the retry but the
post-completion unlink raises. -/
lemma video_run_mp3Ok_unlinkErr (env : Env) (uid t fp e1 e : String)
    (h1 : env.ffmpegWavErr = some e1) (h2 : env.ffmpegMp3Err = none)
    (h3 : env.unlinkErr = some e) :
    submit_and_run env uid t (.video fp) =
      { job := jRec uid t "failed" 100
          (some (generate_threads_ai env
            (transcribe_audio_whisper_api env (replaceVideoExt fp ".mp3")) none)) (some e),
        hist := histPre uid t ++
          [jRec uid t "processing" 40 none none,
           jRec uid t "processing" 60 none none,
           jRec uid t "processing" 80 none none,
           jRec uid t "completed" 100
             (some (generate_threads_ai env
               (transcribe_audio_whisper_api env (replaceVideoExt fp ".mp3")) none)) none,
           jRec uid t "failed" 100
             (some (generate_threads_ai env
               (transcribe_audio_whisper_api env (replaceVideoExt fp ".mp3")) none)) (some e)],
        ptrace := [0, 20, 40, 60, 80, 100],
        fs := addFile [fp] (replaceVideoExt fp ".mp3") } := by
  obtain ⟨api, loc, chat, ysf, ydl, tmp, ytt, fw, fm, ul⟩ := env
  subst h1; subst h2; subst h3
  by_cases hwf : replaceVideoExt fp ".mp3" = fp <;>
    simp [submit_and_run, process_job_background, run_video, extract_audio_from_video,
      initState, setStatus, setProgress, snap, completeUpdate, failUpdate, initialFs,
      initJob, unlink_eq, addFile, histPre, jRec, hwf]

/-- C10: for every job of every kind, immediately after the record is created
with progress 0 the executor sets status processing and writes progress = 20
before any kind-specific stage runs or milestone is written; hence the first
non-zero progress value in the job's write sequence is 20 for all three kinds. -/
theorem C10_progress20_first (env : Env) (uid t : String) (data : JobData) :
    (∃ rest, (submit_and_run env uid t data).ptrace = 0 :: 20 :: rest)
    ∧ (submit_and_run env uid t data).hist.take 3 =
        [jRec uid t "pending" 0 none none,
         jRec uid t "processing" 0 none none,
         jRec uid t "processing" 20 none none]
    ∧ ((submit_and_run env uid t data).ptrace.filter (· ≠ 0)).head? = some 20 := by
  cases data with
  | youtube url =>
    cases h1 : env.ytStreamFound with
    | false =>
      rw [youtube_run_noStream env uid t url h1]
      exact ⟨⟨[30], rfl⟩, rfl, rfl⟩
    | true =>
      cases h2 : env.ytDownloadErr with
      | some e =>
        rw [youtube_run_dlErr env uid t url e h1 h2]
        exact ⟨⟨[30], rfl⟩, rfl, rfl⟩
      | none =>
        cases h3 : env.unlinkErr with
        | none =>
          rw [youtube_run_ok env uid t url h1 h2 h3]
          exact ⟨⟨[30, 60, 80, 100], rfl⟩, rfl, rfl⟩
        | some e =>
          rw [youtube_run_unlinkErr env uid t url e h1 h2 h3]
          exact ⟨⟨[30, 60, 80, 100], rfl⟩, rfl, rfl⟩
  | video fp =>
    cases hw : env.ffmpegWavErr with
    | none =>
      cases h3 : env.unlinkErr with
      | none =>
        rw [video_run_wavOk env uid t fp hw h3]
        exact ⟨⟨[40, 60, 80, 100], rfl⟩, rfl, rfl⟩
      | some e =>
        rw [video_run_wavOk_unlinkErr env uid t fp e hw h3]
        exact ⟨⟨[40, 60, 80, 100], rfl⟩, rfl, rfl⟩
    | some e1 =>
      cases hm : env.ffmpegMp3Err with
      | some e2 =>
        rw [video_run_extractFail env uid t fp e1 e2 hw hm]
        exact ⟨⟨[40], rfl⟩, rfl, rfl⟩
      | none =>
        cases h3 : env.unlinkErr with
        | none =>
          rw [video_run_mp3Ok env uid t fp e1 hw hm h3]
          exact ⟨⟨[40, 60, 80, 100], rfl⟩, rfl, rfl⟩
        | some e =>
          rw [video_run_mp3Ok_unlinkErr env uid t fp e1 e hw hm h3]
          exact ⟨⟨[40, 60, 80, 100], rfl⟩, rfl, rfl⟩
  | article tx =>
    rw [article_run env uid t tx]
    exact ⟨⟨[50, 100], rfl⟩, rfl, rfl⟩

/-- C4 (amended): after the job enters Processing the executor first writes
progress 20 and then the kind's milestones (30/60/80 then 100 for SourceURL,
40/60/80 then 100 for UploadedMedia, 50 then 100 for RawText); the values
written are always an initial segment of that sequence, and a job that ends
Completed has written exactly that sequence.  (The claim as frozen omits the
leading 20.) -/
theorem C4_milestones (env : Env) (uid t : String) (data : JobData) :
    (∃ rest, (submit_and_run env uid t data).ptrace.drop 1 ++ rest = 20 :: milestones data)
    ∧ ((submit_and_run env uid t data).job.status = "completed" →
        (submit_and_run env uid t data).ptrace.drop 1 = 20 :: milestones data) := by
  cases data with
  | youtube url =>
    cases h1 : env.ytStreamFound with
    | false =>
      rw [youtube_run_noStream env uid t url h1]
      exact ⟨⟨[60, 80, 100], rfl⟩, fun h => by simp [jRec] at h⟩
    | true =>
      cases h2 : env.ytDownloadErr with
      | some e =>
        rw [youtube_run_dlErr env uid t url e h1 h2]
        exact ⟨⟨[60, 80, 100], rfl⟩, fun h => by simp [jRec] at h⟩
      | none =>
        cases h3 : env.unlinkErr with
        | none =>
          rw [youtube_run_ok env uid t url h1 h2 h3]
          exact ⟨⟨[], rfl⟩, fun _ => rfl⟩
        | some e =>
          rw [youtube_run_unlinkErr env uid t url e h1 h2 h3]
          exact ⟨⟨[], rfl⟩, fun h => by simp [jRec] at h⟩
  | video fp =>
    cases hw : env.ffmpegWavErr with
    | none =>
      cases h3 : env.unlinkErr with
      | none =>
        rw [video_run_wavOk env uid t fp hw h3]
        exact ⟨⟨[], rfl⟩, fun _ => rfl⟩
      | some e =>
        rw [video_run_wavOk_unlinkErr env uid t fp e hw h3]
        exact ⟨⟨[], rfl⟩, fun h => by simp [jRec] at h⟩
    | some e1 =>
      cases hm : env.ffmpegMp3Err with
      | some e2 =>
        rw [video_run_extractFail env uid t fp e1 e2 hw hm]
        exact ⟨⟨[60, 80, 100], rfl⟩, fun h => by simp [jRec] at h⟩
      | none =>
        cases h3 : env.unlinkErr with
        | none =>
          rw [video_run_mp3Ok env uid t fp e1 hw hm h3]
          exact ⟨⟨[], rfl⟩, fun _ => rfl⟩
        | some e =>
          rw [video_run_mp3Ok_unlinkErr env uid t fp e1 e hw hm h3]
          exact ⟨⟨[], rfl⟩, fun h => by simp [jRec] at h⟩
  | article tx =>
    rw [article_run env uid t tx]
    exact ⟨⟨[], rfl⟩, fun _ => rfl⟩

/-- C4 counterexample: for a RawText job the executor writes [20, 50, 100]
after entering Processing, not the claimed milestone sequence [50, 100]. -/
theorem C4_counterexample :
    (submit_and_run envOk "u" "t" (.article "A. B. C.")).ptrace.drop 1 = [20, 50, 100]
    ∧ [20, 50, 100] ≠ milestones (.article "A. B. C.") := by
  exact ⟨rfl, by decide⟩

/-- C4 witness: a concrete completed RawText job writes exactly 20 followed by
its milestones. -/
theorem C4_witness :
    (submit_and_run envOk "u" "t" (.article "hi")).ptrace.drop 1 =
      20 :: milestones (.article "hi") :=
  (C4_milestones envOk "u" "t" (.article "hi")).2 rfl

/-- C5 (confirmed): for every job, the sequence of progress values written
over its lifetime (the 0 at creation followed by every executor write) is
non-decreasing; the per-mutation record history also has non-decreasing
progress, so a poller — which observes a subsequence of that history — always
observes a non-decreasing sequence. -/
theorem C5_progress_monotone (env : Env) (uid t : String) (data : JobData) :
    List.Chain' (· ≤ ·) (submit_and_run env uid t data).ptrace
    ∧ List.Chain' (· ≤ ·) ((submit_and_run env uid t data).hist.map (fun r => r.progress))
    ∧ ∀ obs, obs.Sublist ((submit_and_run env uid t data).hist.map (fun r => r.progress)) →
        List.Chain' (· ≤ ·) obs := by
  have key : List.Chain' (· ≤ ·) (submit_and_run env uid t data).ptrace
      ∧ List.Chain' (· ≤ ·) ((submit_and_run env uid t data).hist.map (fun r => r.progress)) := by
    cases data with
    | youtube url =>
      cases h1 : env.ytStreamFound with
      | false =>
        rw [youtube_run_noStream env uid t url h1]; exact ⟨by simp, by simp [histPre, jRec]⟩
      | true =>
        cases h2 : env.ytDownloadErr with
        | some e =>
          rw [youtube_run_dlErr env uid t url e h1 h2]; exact ⟨by simp, by simp [histPre, jRec]⟩
        | none =>
          cases h3 : env.unlinkErr with
          | none =>
            rw [youtube_run_ok env uid t url h1 h2 h3]
            exact ⟨by simp, by simp [histPre, jRec]⟩
          | some e =>
            rw [youtube_run_unlinkErr env uid t url e h1 h2 h3]
            exact ⟨by simp, by simp [histPre, jRec]⟩
    | video fp =>
      cases hw : env.ffmpegWavErr with
      | none =>
        cases h3 : env.unlinkErr with
        | none =>
          rw [video_run_wavOk env uid t fp hw h3]; exact ⟨by simp, by simp [histPre, jRec]⟩
        | some e =>
          rw [video_run_wavOk_unlinkErr env uid t fp e hw h3]
          exact ⟨by simp, by simp [histPre, jRec]⟩
      | some e1 =>
        cases hm : env.ffmpegMp3Err with
        | some e2 =>
          rw [video_run_extractFail env uid t fp e1 e2 hw hm]
          exact ⟨by simp, by simp [histPre, jRec]⟩
        | none =>
          cases h3 : env.unlinkErr with
          | none =>
            rw [video_run_mp3Ok env uid t fp e1 hw hm h3]
            exact ⟨by simp, by simp [histPre, jRec]⟩
          | some e =>
            rw [video_run_mp3Ok_unlinkErr env uid t fp e1 e hw hm h3]
            exact ⟨by simp, by simp [histPre, jRec]⟩
    | article tx =>
      rw [article_run env uid t tx]; exact ⟨by simp, by simp [histPre, jRec]⟩
  exact ⟨key.1, key.2, fun obs hs => key.2.sublist hs⟩

/-- C5 witness: a concrete job's write trace is non-decreasing, and so is a
concrete polled subsequence of its record history. -/
theorem C5_witness :
    List.Chain' (· ≤ ·) (submit_and_run envOk "u" "t" (.article "hi")).ptrace
    ∧ List.Chain' (· ≤ ·) ([0, 20, 100] : List Nat) :=
  ⟨(C5_progress_monotone envOk "u" "t" (.article "hi")).1,
   (C5_progress_monotone envOk "u" "t" (.article "hi")).2.2 [0, 20, 100] (by decide)⟩

/-- an environment in which both transcription paths raise and everything
else succeeds. -/
def envBothTranscribeFail : Env :=
  { envOk with apiTranscript := none, localTranscript := none }

/-- C1 (amended): the remote Whisper path is tried first and the local model
on its failure, but when both fail the transcribe stage returns the placeholder
text "Error: Could not transcribe audio" instead of raising: no
TranscriptionError is raised, the job is not marked Failed, and the pipeline
continues past transcription, completing with a result generated from the
placeholder text. -/
theorem C1_transcription_placeholder (env : Env) (uid t url p : String)
    (hapi : env.apiTranscript = none) (hloc : env.localTranscript = none)
    (h1 : env.ytStreamFound = true) (h2 : env.ytDownloadErr = none)
    (h3 : env.unlinkErr = none) :
    transcribe_audio_whisper_api env p = "Error: Could not transcribe audio"
    ∧ (submit_and_run env uid t (.youtube url)).job.status = "completed"
    ∧ (submit_and_run env uid t (.youtube url)).job.error = none
    ∧ (submit_and_run env uid t (.youtube url)).job.result =
        some (generate_threads_ai env "Error: Could not transcribe audio"
          (some env.ytTitle)) := by
  refine ⟨?_, ?_, ?_, ?_⟩
  · simp [transcribe_audio_whisper_api, transcribe_audio_local, hapi, hloc]
  · rw [youtube_run_ok env uid t url h1 h2 h3]
    rfl
  · rw [youtube_run_ok env uid t url h1 h2 h3]
    rfl
  · rw [youtube_run_ok env uid t url h1 h2 h3]
    simp [jRec, transcribe_audio_whisper_api, transcribe_audio_local, hapi, hloc]

/-- C1 counterexample: with both transcription paths failing, the job is NOT
marked Failed — it completes, with no error, the transcribe call having
returned the placeholder text. -/
theorem C1_counterexample :
    transcribe_audio_whisper_api envBothTranscribeFail "/tmp/a.mp4" =
      "Error: Could not transcribe audio"
    ∧ (submit_and_run envBothTranscribeFail "u" "t" (.youtube "url")).job.status = "completed"
    ∧ (submit_and_run envBothTranscribeFail "u" "t" (.youtube "url")).job.error = none := by
  refine ⟨rfl, ?_, ?_⟩ <;>
    rw [youtube_run_ok envBothTranscribeFail "u" "t" "url" rfl rfl rfl] <;> rfl

/-- C1 witness: the amended theorem applied at a concrete environment. -/
theorem C1_witness :
    transcribe_audio_whisper_api envBothTranscribeFail "p" = "Error: Could not transcribe audio"
    ∧ (submit_and_run envBothTranscribeFail "u" "t" (.youtube "url")).job.status = "completed"
    ∧ (submit_and_run envBothTranscribeFail "u" "t" (.youtube "url")).job.error = none
    ∧ (submit_and_run envBothTranscribeFail "u" "t" (.youtube "url")).job.result =
        some (generate_threads_ai envBothTranscribeFail "Error: Could not transcribe audio"
          (some envBothTranscribeFail.ytTitle)) :=
  C1_transcription_placeholder envBothTranscribeFail "u" "t" "url" "p" rfl rfl rfl rfl rfl

lemma getLast?_cons_append_singleton (a b : String) (l : List String) :
    (a :: (l ++ [b])).getLast? = some b := by
  rw [← List.cons_append]
  exact List.getLast?_concat _

/-- C2 (amended): when the remote generation call raises or its content is not
valid JSON (`json.loads` raises), the generate stage does not fail the job: it
completes with the deterministic fallback — a single artifact whose segments
are a hook, each non-blank sentence prefixed with its ordinal, and a fixed
call-to-action, labelled engagement "Medium"; for input "A. B. C." the
segments include "1/ A.", "2/ B." and "3/ C.." (the last sentence keeps its
own period and gains the appended one).  However a response that is valid
JSON of the wrong shape is returned as the result unvalidated (see the
counterexample), so the fallback is NOT used for every structurally
unexpected response. -/
theorem C2_generation_fallback (env : Env) (uid t tx : String)
    (hc : env.chatJson = none) :
    (submit_and_run env uid t (.article tx)).job.status = "completed"
    ∧ (submit_and_run env uid t (.article tx)).job.result = some (fallback_threads tx none)
    ∧ fallback_threads tx none ≠ .list []
    ∧ (fallbackTweets tx none).head? = some "🧵 Key insights - Thread:"
    ∧ (fallbackTweets tx none).getLast? =
        some "What do you think? Drop your thoughts below! 👇"
    ∧ fallbackTweets "A. B. C." none =
        ["🧵 Key insights - Thread:", "1/ A.", "2/ B.", "3/ C..",
         "What do you think? Drop your thoughts below! 👇"]
    ∧ "1/ A." ∈ fallbackTweets "A. B. C." none
    ∧ "2/ B." ∈ fallbackTweets "A. B. C." none
    ∧ "3/ C.." ∈ fallbackTweets "A. B. C." none := by
  refine ⟨?_, ?_, ?_, ?_, ?_, by decide, by decide, by decide, by decide⟩
  · rw [article_run env uid t tx]
    rfl
  · rw [article_run env uid t tx]
    simp [jRec, generate_threads_ai, hc]
  · intro h
    rw [fallback_threads] at h
    simp at h
  · simp [fallbackTweets, pyOrStr]
  · simp only [fallbackTweets]
    exact getLast?_cons_append_singleton _ _ _

/-- an environment whose chat completion returns valid JSON of the wrong
shape (the JSON string "oops"). -/
def envBadShape : Env := { envOk with chatJson := some (.str "oops") }

/-- C2 counterexample: a remote response that is valid JSON but not the
expected structure is returned as the job's result unvalidated — the job
completes with result "oops", not with the deterministic fallback thread. -/
theorem C2_counterexample :
    (submit_and_run envBadShape "u" "t" (.article "A. B. C.")).job.status = "completed"
    ∧ (submit_and_run envBadShape "u" "t" (.article "A. B. C.")).job.result =
        some (.str "oops")
    ∧ PyVal.str "oops" ≠ fallback_threads "A. B. C." none := by
  refine ⟨?_, ?_, ?_⟩
  · rw [article_run envBadShape "u" "t" "A. B. C."]
    rfl
  · rw [article_run envBadShape "u" "t" "A. B. C."]
    rfl
  · intro h
    rw [fallback_threads] at h
    simp at h

/-- C2 witness: the amended theorem applied at a concrete environment. -/
theorem C2_witness :
    (submit_and_run envOk "u" "t" (.article "A. B. C.")).job.status = "completed"
    ∧ (submit_and_run envOk "u" "t" (.article "A. B. C.")).job.result =
        some (fallback_threads "A. B. C." none) :=
  ⟨(C2_generation_fallback envOk "u" "t" "A. B. C." rfl).1,
   (C2_generation_fallback envOk "u" "t" "A. B. C." rfl).2.1⟩

/-- C7 (confirmed): both queries answer NotFound for an unknown id; for a
known id with a non-matching owner both answer Unauthorized; and the result
query for an owned job whose status is not completed answers NotReady. -/
theorem C7_query_errors (store : String → Option JobRec) (jid uid : String) :
    (store jid = none →
      get_job_status store jid uid = .error .NotFound
      ∧ get_job_result store jid uid = .error .NotFound)
    ∧ (∀ job, store jid = some job → job.user_id ≠ uid →
      get_job_status store jid uid = .error .Unauthorized
      ∧ get_job_result store jid uid = .error .Unauthorized)
    ∧ (∀ job, store jid = some job → job.user_id = uid → job.status ≠ "completed" →
      get_job_result store jid uid = .error .NotReady) := by
  refine ⟨fun h => ?_, fun job h hne => ?_, fun job h he hs => ?_⟩
  · unfold get_job_status get_job_result
    rw [h]
    exact ⟨rfl, rfl⟩
  · unfold get_job_status get_job_result
    simp only [h]
    rw [if_pos hne, if_pos hne]
    exact ⟨rfl, rfl⟩
  · unfold get_job_result
    simp only [h]
    rw [if_neg (fun hn : job.user_id ≠ uid => hn he), if_pos hs]

/-- a concrete store with one processing job owned by alice. -/
def storeW : String → Option JobRec :=
  fun jid => if jid = "j1" then some (jRec "alice" "t0" "processing" 20 none none) else none

/-- C7 witness: the three error answers at concrete inputs. -/
theorem C7_witness :
    get_job_status storeW "zzz" "alice" = .error .NotFound
    ∧ get_job_result storeW "zzz" "alice" = .error .NotFound
    ∧ get_job_status storeW "j1" "bob" = .error .Unauthorized
    ∧ get_job_result storeW "j1" "bob" = .error .Unauthorized
    ∧ get_job_result storeW "j1" "alice" = .error .NotReady :=
  ⟨((C7_query_errors storeW "zzz" "alice").1 rfl).1,
   ((C7_query_errors storeW "zzz" "alice").1 rfl).2,
   ((C7_query_errors storeW "j1" "bob").2.1 _ rfl (by decide)).1,
   ((C7_query_errors storeW "j1" "bob").2.1 _ rfl (by decide)).2,
   (C7_query_errors storeW "j1" "alice").2.2 _ rfl rfl (by decide)⟩

/-- C8 (amended): a successful status query returns the entire stored job
record — `user_id`, `status`, `progress`, `created_at`, and `result`/`error`
when present — so the status surface does expose the result artifacts and the
owner identity.  (The claim that it returns only status, progress and error
fails; see the counterexample.) -/
theorem C8_status_returns_full_record (store : String → Option JobRec)
    (jid uid : String) (job : JobRec) (h : store jid = some job)
    (ha : job.user_id = uid) :
    get_job_status store jid uid = .ok job
    ∧ ∃ r, get_job_status store jid uid = .ok r
        ∧ r.result = job.result ∧ r.user_id = job.user_id ∧ r.created_at = job.created_at
        ∧ r.status = job.status ∧ r.progress = job.progress ∧ r.error = job.error := by
  have hok : get_job_status store jid uid = .ok job := by
    unfold get_job_status
    simp only [h]
    rw [if_neg (fun hn : job.user_id ≠ uid => hn ha)]
  exact ⟨hok, job, hok, rfl, rfl, rfl, rfl, rfl, rfl⟩

/-- a concrete store with one completed job owned by alice, result present. -/
def storeDone : String → Option JobRec :=
  fun jid => if jid = "j1" then
    some (jRec "alice" "t0" "completed" 100 (some (.list [.str "x"])) none) else none

/-- C8 counterexample: the status response for a completed job is the full
record: its result field is populated and its owner identity is readable from
it, contradicting the claim that only status, progress and error are
returned. -/
theorem C8_counterexample :
    get_job_status storeDone "j1" "alice" =
      .ok (jRec "alice" "t0" "completed" 100 (some (.list [.str "x"])) none)
    ∧ (jRec "alice" "t0" "completed" 100 (some (.list [.str "x"])) none).result ≠ none
    ∧ (jRec "alice" "t0" "completed" 100 (some (.list [.str "x"])) none).user_id = "alice" := by
  exact ⟨rfl, Option.some_ne_none _, rfl⟩

/-- C8 witness: the amended theorem applied at a concrete store. -/
theorem C8_witness :
    get_job_status storeDone "j1" "alice" =
      .ok (jRec "alice" "t0" "completed" 100 (some (.list [.str "x"])) none)
    ∧ ∃ r, get_job_status storeDone "j1" "alice" = .ok r
        ∧ r.result = (jRec "alice" "t0" "completed" 100 (some (.list [.str "x"])) none).result
        ∧ r.user_id = (jRec "alice" "t0" "completed" 100 (some (.list [.str "x"])) none).user_id
        ∧ r.created_at = (jRec "alice" "t0" "completed" 100 (some (.list [.str "x"])) none).created_at
        ∧ r.status = (jRec "alice" "t0" "completed" 100 (some (.list [.str "x"])) none).status
        ∧ r.progress = (jRec "alice" "t0" "completed" 100 (some (.list [.str "x"])) none).progress
        ∧ r.error = (jRec "alice" "t0" "completed" 100 (some (.list [.str "x"])) none).error :=
  C8_status_returns_full_record storeDone "j1" "alice" _ rfl rfl

/-- C9 (confirmed): for an UploadedMedia job whose primary (wav) ffmpeg run
fails, extraction is retried exactly once against the mp3 target (the attempt
list is [wav, mp3] and no more); if the retry succeeds the stage returns the
mp3 path, and if the retry also fails the stage raises "FFmpeg failed: ..."
and the job goes directly to Failed with that message as its error and no
result stored. -/
theorem C9_extraction_retry (env : Env) (uid t fp e1 : String)
    (h1 : env.ffmpegWavErr = some e1) :
    (env.ffmpegMp3Err = none →
      (extract_audio_from_video env fp [fp]).res = .ok (replaceVideoExt fp ".mp3")
      ∧ (extract_audio_from_video env fp [fp]).calls =
          [replaceVideoExt fp ".wav", replaceVideoExt fp ".mp3"])
    ∧ (∀ e2, env.ffmpegMp3Err = some e2 →
      (extract_audio_from_video env fp [fp]).res = .error ("FFmpeg failed: " ++ e2)
      ∧ (extract_audio_from_video env fp [fp]).calls =
          [replaceVideoExt fp ".wav", replaceVideoExt fp ".mp3"]
      ∧ (submit_and_run env uid t (.video fp)).job.status = "failed"
      ∧ (submit_and_run env uid t (.video fp)).job.error =
          some ("FFmpeg failed: " ++ e2)
      ∧ (submit_and_run env uid t (.video fp)).job.result = none) := by
  refine ⟨fun h2 => ?_, fun e2 h2 => ?_⟩
  · unfold extract_audio_from_video
    rw [h1, h2]
    exact ⟨rfl, rfl⟩
  · refine ⟨?_, ?_, ?_, ?_, ?_⟩
    · unfold extract_audio_from_video
      rw [h1, h2]
    · unfold extract_audio_from_video
      rw [h1, h2]
    · rw [video_run_extractFail env uid t fp e1 e2 h1 h2]
      rfl
    · rw [video_run_extractFail env uid t fp e1 e2 h1 h2]
      rfl
    · rw [video_run_extractFail env uid t fp e1 e2 h1 h2]
      rfl

/-- an environment where both ffmpeg attempts fail. -/
def envExtractFail : Env :=
  { envOk with ffmpegWavErr := some "e1", ffmpegMp3Err := some "e2" }

/-- an environment where the primary ffmpeg attempt fails and the retry
succeeds. -/
def envMp3Retry : Env := { envOk with ffmpegWavErr := some "e1" }

/-- C9 witness: both halves of the retry policy at concrete environments. -/
theorem C9_witness :
    ((extract_audio_from_video envMp3Retry "/tmp/v.mp4" ["/tmp/v.mp4"]).res =
        .ok (replaceVideoExt "/tmp/v.mp4" ".mp3")
      ∧ (extract_audio_from_video envMp3Retry "/tmp/v.mp4" ["/tmp/v.mp4"]).calls =
        [replaceVideoExt "/tmp/v.mp4" ".wav", replaceVideoExt "/tmp/v.mp4" ".mp3"])
    ∧ ((extract_audio_from_video envExtractFail "/tmp/v.mp4" ["/tmp/v.mp4"]).res =
        .error ("FFmpeg failed: " ++ "e2")
      ∧ (extract_audio_from_video envExtractFail "/tmp/v.mp4" ["/tmp/v.mp4"]).calls =
        [replaceVideoExt "/tmp/v.mp4" ".wav", replaceVideoExt "/tmp/v.mp4" ".mp3"]
      ∧ (submit_and_run envExtractFail "u" "t" (.video "/tmp/v.mp4")).job.status = "failed"
      ∧ (submit_and_run envExtractFail "u" "t" (.video "/tmp/v.mp4")).job.error =
          some ("FFmpeg failed: " ++ "e2")
      ∧ (submit_and_run envExtractFail "u" "t" (.video "/tmp/v.mp4")).job.result = none) :=
  ⟨(C9_extraction_retry envMp3Retry "u" "t" "/tmp/v.mp4" "e1" rfl).1 rfl,
   (C9_extraction_retry envExtractFail "u" "t" "/tmp/v.mp4" "e1" rfl).2 "e2" rfl⟩

/-- C6 (amended): when a job reaches Completed every temporary artifact
created for it (downloaded media, extracted audio, uploaded file) has been
deleted, provided the deletions themselves do not raise; on the failure path
no cleanup runs at all, so artifacts already created are left on disk (see
the counterexample). -/
theorem C6_cleanup_on_success (env : Env) (uid t : String) (data : JobData)
    (hu : env.unlinkErr = none)
    (hcmp : (submit_and_run env uid t data).job.status = "completed") :
    (submit_and_run env uid t data).fs = [] := by
  cases data with
  | youtube url =>
    cases h1 : env.ytStreamFound with
    | false =>
      rw [youtube_run_noStream env uid t url h1] at hcmp
      simp [jRec] at hcmp
    | true =>
      cases h2 : env.ytDownloadErr with
      | some e =>
        rw [youtube_run_dlErr env uid t url e h1 h2] at hcmp
        simp [jRec] at hcmp
      | none =>
        rw [youtube_run_ok env uid t url h1 h2 hu]
  | video fp =>
    cases hw : env.ffmpegWavErr with
    | none =>
      rw [video_run_wavOk env uid t fp hw hu]
      by_cases hwf : replaceVideoExt fp ".wav" = fp <;>
        simp [addFile, List.erase_cons_head, List.erase_cons_tail, hwf]
    | some e1 =>
      cases hm : env.ffmpegMp3Err with
      | some e2 =>
        rw [video_run_extractFail env uid t fp e1 e2 hw hm] at hcmp
        simp [jRec] at hcmp
      | none =>
        rw [video_run_mp3Ok env uid t fp e1 hw hm hu]
        by_cases hwf : replaceVideoExt fp ".mp3" = fp <;>
          simp [addFile, List.erase_cons_head, List.erase_cons_tail, hwf]
  | article tx =>
    rw [article_run env uid t tx]

/-- C6 counterexample: an UploadedMedia job whose extraction fails ends
Failed with the uploaded file still on disk — cleanup did not run on the
failure path. -/
theorem C6_counterexample :
    (submit_and_run envExtractFail "u" "t" (.video "/tmp/v.mp4")).job.status = "failed"
    ∧ "/tmp/v.mp4" ∈ (submit_and_run envExtractFail "u" "t" (.video "/tmp/v.mp4")).fs := by
  exact ⟨rfl, by decide⟩

/-- C6 witness: a concrete completed UploadedMedia job has an empty artifact
set afterwards. -/
theorem C6_witness :
    (submit_and_run envOk "u" "t" (.video "/tmp/v.mp4")).fs = [] :=
  C6_cleanup_on_success envOk "u" "t" (.video "/tmp/v.mp4") rfl
    (by rw [video_run_wavOk envOk "u" "t" "/tmp/v.mp4" rfl rfl]; rfl)

lemma ffmpeg_msg_ne_empty (e : String) : ("FFmpeg failed: " ++ e) ≠ "" := by
  intro h
  have h2 := congrArg String.length h
  rw [String.length_append] at h2
  have h3 : ("FFmpeg failed: ").length = 15 := rfl
  have h4 : ("" : String).length = 0 := rfl
  omega

/-- The record invariant of the spec (§3): result/error present only in the
matching terminal state (hence never both), Completed pinned to progress 100
with a non-empty result list, Failed carrying a non-empty error message. -/
def RecInv (r : JobRec) : Prop :=
  (r.status = "completed" →
    r.progress = 100 ∧ (∃ l, r.result = some (.list l) ∧ l ≠ []) ∧ r.error = none)
  ∧ (r.status = "failed" → (∃ e, r.error = some e ∧ e ≠ "") ∧ r.result = none)
  ∧ (r.status ≠ "completed" ∧ r.status ≠ "failed" → r.result = none ∧ r.error = none)

lemma recInv_pending (uid t : String) : RecInv (jRec uid t "pending" 0 none none) := by
  refine ⟨fun h => ?_, fun h => ?_, fun _ => ⟨rfl, rfl⟩⟩ <;> simp [jRec] at h

lemma recInv_processing (uid t : String) (p : Nat) :
    RecInv (jRec uid t "processing" p none none) := by
  refine ⟨fun h => ?_, fun h => ?_, fun _ => ⟨rfl, rfl⟩⟩ <;> simp [jRec] at h

lemma recInv_completed (uid t : String) (res : PyVal) (l : List PyVal)
    (hres : res = .list l) (hl : l ≠ []) :
    RecInv (jRec uid t "completed" 100 (some res) none) := by
  refine ⟨fun _ => ⟨rfl, ⟨l, by simp [jRec, hres], hl⟩, rfl⟩, fun h => ?_, fun h => ?_⟩
  · simp [jRec] at h
  · simp [jRec] at h

lemma recInv_failed (uid t : String) (p : Nat) (e : String) (he : e ≠ "") :
    RecInv (jRec uid t "failed" p none (some e)) := by
  refine ⟨fun h => ?_, fun _ => ⟨⟨e, rfl, he⟩, rfl⟩, fun h => ?_⟩
  · simp [jRec] at h
  · simp [jRec] at h

lemma generate_result_ok (env : Env)
    (hc : ∀ v, env.chatJson = some v → ∃ l, v = PyVal.list l ∧ l ≠ [])
    (content : String) (title : Option String) :
    ∃ l, generate_threads_ai env content title = PyVal.list l ∧ l ≠ [] := by
  cases h : env.chatJson with
  | some v =>
    obtain ⟨l, rfl, hl⟩ := hc v h
    exact ⟨l, by simp [generate_threads_ai, h], hl⟩
  | none =>
    refine ⟨[.dict [("title", .str (pyOrStr title "Generated Thread")),
                    ("tweets", .list ((fallbackTweets content title).map .str)),
                    ("engagement", .str "Medium")]], ?_, ?_⟩
    · simp [generate_threads_ai, h, fallback_threads]
    · simp

/-- C3 (amended): provided the post-completion `os.unlink` cleanup does not
raise, external failure messages are non-blank, and a successfully parsed
remote generation response is a non-empty list, every record value a job's
store entry takes satisfies the claimed invariant: result only on Completed
(with progress 100, non-empty), error only on Failed (non-empty), never both.
If cleanup does raise after the completed-update, the record ends Failed with
both result and error set (see the counterexample). -/
theorem C3_record_invariant (env : Env) (uid t : String) (data : JobData)
    (hu : env.unlinkErr = none)
    (hd : env.ytDownloadErr ≠ some "")
    (hc : ∀ v, env.chatJson = some v → ∃ l, v = PyVal.list l ∧ l ≠ []) :
    ∀ r ∈ (submit_and_run env uid t data).hist, RecInv r := by
  cases data with
  | youtube url =>
    cases h1 : env.ytStreamFound with
    | false =>
      rw [youtube_run_noStream env uid t url h1]
      intro r hr
      simp [histPre] at hr
      rcases hr with rfl | rfl | rfl | rfl | rfl
      · exact recInv_pending uid t
      · exact recInv_processing uid t 0
      · exact recInv_processing uid t 20
      · exact recInv_processing uid t 30
      · exact recInv_failed uid t 30 _ (by decide)
    | true =>
      cases h2 : env.ytDownloadErr with
      | some e =>
        rw [youtube_run_dlErr env uid t url e h1 h2]
        intro r hr
        simp [histPre] at hr
        rcases hr with rfl | rfl | rfl | rfl | rfl
        · exact recInv_pending uid t
        · exact recInv_processing uid t 0
        · exact recInv_processing uid t 20
        · exact recInv_processing uid t 30
        · exact recInv_failed uid t 30 e (fun hee => hd (by rw [hee] at h2; exact h2))
      | none =>
        rw [youtube_run_ok env uid t url h1 h2 hu]
        intro r hr
        simp [histPre] at hr
        obtain ⟨l, hres, hl⟩ :=
          generate_result_ok env hc (transcribe_audio_whisper_api env env.tmpName)
            (some env.ytTitle)
        rcases hr with rfl | rfl | rfl | rfl | rfl | rfl | rfl
        · exact recInv_pending uid t
        · exact recInv_processing uid t 0
        · exact recInv_processing uid t 20
        · exact recInv_processing uid t 30
        · exact recInv_processing uid t 60
        · exact recInv_processing uid t 80
        · exact recInv_completed uid t _ l hres hl
  | video fp =>
    cases hw : env.ffmpegWavErr with
    | none =>
      rw [video_run_wavOk env uid t fp hw hu]
      intro r hr
      simp [histPre] at hr
      obtain ⟨l, hres, hl⟩ :=
        generate_result_ok env hc
          (transcribe_audio_whisper_api env (replaceVideoExt fp ".wav")) none
      rcases hr with rfl | rfl | rfl | rfl | rfl | rfl | rfl
      · exact recInv_pending uid t
      · exact recInv_processing uid t 0
      · exact recInv_processing uid t 20
      · exact recInv_processing uid t 40
      · exact recInv_processing uid t 60
      · exact recInv_processing uid t 80
      · exact recInv_completed uid t _ l hres hl
    | some e1 =>
      cases hm : env.ffmpegMp3Err with
      | some e2 =>
        rw [video_run_extractFail env uid t fp e1 e2 hw hm]
        intro r hr
        simp [histPre] at hr
        rcases hr with rfl | rfl | rfl | rfl | rfl
        · exact recInv_pending uid t
        · exact recInv_processing uid t 0
        · exact recInv_processing uid t 20
        · exact recInv_processing uid t 40
        · exact recInv_failed uid t 40 _ (ffmpeg_msg_ne_empty e2)
      | none =>
        rw [video_run_mp3Ok env uid t fp e1 hw hm hu]
        intro r hr
        simp [histPre] at hr
        obtain ⟨l, hres, hl⟩ :=
          generate_result_ok env hc
            (transcribe_audio_whisper_api env (replaceVideoExt fp ".mp3")) none
        rcases hr with rfl | rfl | rfl | rfl | rfl | rfl | rfl
        · exact recInv_pending uid t
        · exact recInv_processing uid t 0
        · exact recInv_processing uid t 20
        · exact recInv_processing uid t 40
        · exact recInv_processing uid t 60
        · exact recInv_processing uid t 80
        · exact recInv_completed uid t _ l hres hl
  | article tx =>
    rw [article_run env uid t tx]
    intro r hr
    simp [histPre] at hr
    obtain ⟨l, hres, hl⟩ := generate_result_ok env hc tx none
    rcases hr with rfl | rfl | rfl | rfl | rfl
    · exact recInv_pending uid t
    · exact recInv_processing uid t 0
    · exact recInv_processing uid t 20
    · exact recInv_processing uid t 50
    · exact recInv_completed uid t _ l hres hl

/-- an environment whose post-completion `os.unlink` raises. -/
def envUnlinkFail : Env := { envOk with unlinkErr := some "unlink failed" }

/-- C3 counterexample: when the post-completion cleanup raises, the record
ends with status failed while BOTH result and error are set — refuting
"at most one of result and error is set" and "a Failed job has no result". -/
theorem C3_counterexample :
    (submit_and_run envUnlinkFail "u" "t" (.youtube "url")).job.status = "failed"
    ∧ (submit_and_run envUnlinkFail "u" "t" (.youtube "url")).job.result ≠ none
    ∧ (submit_and_run envUnlinkFail "u" "t" (.youtube "url")).job.error =
        some "unlink failed" := by
  refine ⟨?_, ?_, ?_⟩ <;>
    rw [youtube_run_unlinkErr envUnlinkFail "u" "t" "url" "unlink failed" rfl rfl rfl]
  · rfl
  · exact Option.some_ne_none _
  · rfl

/-- C3 witness: the invariant holds of the final record of a concrete job run
under the amended hypotheses. -/
theorem C3_witness :
    RecInv (submit_and_run envOk "u" "t" (.article "hi")).job :=
  C3_record_invariant envOk "u" "t" (.article "hi") rfl (by simp [envOk])
    (fun v hv => by simp [envOk] at hv)
    _ (by rw [article_run envOk "u" "t" "hi"]; simp [histPre])
